import Mathlib

/-!
Shallow embedding of the quiz application's core (src/database.py, src/app.py,
src/ai_engine.py): the SQLite-backed store becomes list-valued state, the
Streamlit student quiz view becomes a step function on explicit run state, and
the deterministic fallback report becomes a list of structured report items.
-/

namespace QuizApp

/-- A row of the `questions` table (src/database.py, `init_database`). -/
structure Question where
  id : Nat
  question_text : String
  correct_answer : String
  skill_tag : String
  topic : String
  options : String
  deriving DecidableEq, Repr

/-- A row of the `sessions` table (src/database.py, `init_database`). -/
structure SessionRow where
  id : Nat
  teacher_id : String
  topic : String
  subtopic : String
  is_active : Bool
  deriving DecidableEq, Repr

/-- A row of the `results` table (src/database.py, `init_database`);
`is_correct` stored as 1/0 is modelled as `Bool`. -/
structure ResultRow where
  session_id : Nat
  student_id : String
  question_id : Nat
  selected_answer : String
  is_correct : Bool
  deriving DecidableEq, Repr

/-- The database state: the three tables the core logic touches. -/
structure DB where
  sessions : List SessionRow
  questions : List Question
  results : List ResultRow
  deriving DecidableEq, Repr

/-- Largest session id currently allocated (AUTOINCREMENT high-water mark). -/
def maxSessionId (db : DB) : Nat :=
  db.sessions.foldl (fun m s => max m s.id) 0

/-- `create_session` (src/database.py): INSERT a new session row, `is_active`
defaulting to 1, and return its fresh AUTOINCREMENT id. -/
def create_session (db : DB) (teacher_id topic subtopic : String) : DB × Nat :=
  let newId := maxSessionId db + 1
  ({ db with sessions := db.sessions ++ [⟨newId, teacher_id, topic, subtopic, true⟩] }, newId)

/-- `get_session` (src/database.py): SELECT * FROM sessions WHERE id = ?. -/
def get_session (db : DB) (session_id : Nat) : Option SessionRow :=
  db.sessions.find? (fun s => s.id == session_id)

/-- `close_session` (src/database.py): UPDATE sessions SET is_active = 0 WHERE id = ?. -/
def close_session (db : DB) (session_id : Nat) : DB :=
  { db with
    sessions := db.sessions.map (fun s =>
      if s.id == session_id then { s with is_active := false } else s) }

/-- `get_questions_for_student` (src/database.py): questions of a topic. -/
def get_questions_for_student (db : DB) (topic : String) : List Question :=
  db.questions.filter (fun q => q.topic == topic)

/-- `save_student_answer` (src/database.py): a plain INSERT into `results`
(no uniqueness constraint on (session_id, student_id, question_id)). -/
def save_student_answer (db : DB) (session_id : Nat) (student_id : String)
    (question_id : Nat) (selected_answer : String) (is_correct : Bool) : DB :=
  { db with
    results := db.results ++ [⟨session_id, student_id, question_id, selected_answer, is_correct⟩] }

/-- `check_student_completed` (src/database.py): COUNT(*) of the student's
rows in this session is positive. -/
def check_student_completed (db : DB) (session_id : Nat) (student_id : String) : Bool :=
  decide (0 < (db.results.filter
    (fun r => r.session_id == session_id && r.student_id == student_id)).length)

/-- `get_participation_count` (src/database.py): COUNT(DISTINCT student_id). -/
def get_participation_count (db : DB) (session_id : Nat) : Nat :=
  ((db.results.filter (fun r => r.session_id == session_id)).map
    (fun r => r.student_id)).dedup.length

/-- Correct answer of a question id looked up in a question list
(helper for `get_correct_answer`, which reads the `questions` table). -/
def correct_answer_in (qs : List Question) (question_id : Nat) : String :=
  match qs.find? (fun q => q.id == question_id) with
  | some q => q.correct_answer
  | none => ""

/-- `get_correct_answer` (src/database.py): correct answer or "" when absent. -/
def get_correct_answer (db : DB) (question_id : Nat) : String :=
  correct_answer_in db.questions question_id

/-- SQLite ROUND(x, 1) on the nonnegative rates this app computes:
round half up to one decimal place. -/
def round1 (x : Rat) : Rat :=
  ((⌊x * 10 + 1 / 2⌋ : Int) : Rat) / 10

/-- One output row of `get_skill_statistics` (src/database.py): only the
skill tag, the two counts and the rate — no question text column. -/
structure SkillStat where
  skill_tag : String
  total_answers : Nat
  correct_answers : Nat
  success_rate : Rat
  deriving DecidableEq, Repr

/-- The FROM/JOIN/WHERE of `get_skill_statistics`: result rows of the session
joined to their question row. -/
def joined_rows (db : DB) (session_id : Nat) : List (ResultRow × Question) :=
  (db.results.filter (fun r => r.session_id == session_id)).filterMap
    (fun r => (db.questions.find? (fun q => q.id == r.question_id)).map (fun q => (r, q)))

/-- The GROUP BY keys: distinct skill tags appearing among the joined rows. -/
def session_skill_tags (db : DB) (session_id : Nat) : List String :=
  ((joined_rows db session_id).map (fun p => p.2.skill_tag)).dedup

/-- One GROUP BY group: the joined rows carrying a given skill tag. -/
def skill_group (db : DB) (session_id : Nat) (tag : String) : List (ResultRow × Question) :=
  (joined_rows db session_id).filter (fun p => p.2.skill_tag == tag)

/-- The SELECT of `get_skill_statistics` on one group: COUNT, SUM(is_correct),
ROUND(SUM/COUNT*100, 1). -/
def stat_of_group (tag : String) (rows : List (ResultRow × Question)) : SkillStat :=
  let total := rows.length
  let correct := (rows.filter (fun p => p.1.is_correct)).length
  { skill_tag := tag, total_answers := total, correct_answers := correct,
    success_rate := round1 ((correct : Rat) / (total : Rat) * 100) }

/-- `get_skill_statistics` (src/database.py): per-skill statistics of a session. -/
def get_skill_statistics (db : DB) (session_id : Nat) : List SkillStat :=
  (session_skill_tags db session_id).map
    (fun tag => stat_of_group tag (skill_group db session_id tag))

/-- Division made explicitly fallible: `none` models a division-by-zero error. -/
def sqlDiv (a b : Rat) : Option Rat :=
  if b = 0 then none else some (a / b)

/-- Collect a list of optional values, failing if any entry failed. -/
def optionList {α : Type} : List (Option α) → Option (List α)
  | [] => some []
  | none :: _ => none
  | some a :: rest => (optionList rest).map (fun l => a :: l)

/-- `stat_of_group` with the division checked for division by zero. -/
def stat_of_group_checked (tag : String) (rows : List (ResultRow × Question)) : Option SkillStat :=
  let total := rows.length
  let correct := (rows.filter (fun p => p.1.is_correct)).length
  (sqlDiv (correct : Rat) (total : Rat)).map (fun q =>
    { skill_tag := tag, total_answers := total, correct_answers := correct,
      success_rate := round1 (q * 100) })

/-- `get_skill_statistics` with every per-skill division checked. -/
def get_skill_statistics_checked (db : DB) (session_id : Nat) : Option (List SkillStat) :=
  optionList ((session_skill_tags db session_id).map
    (fun tag => stat_of_group_checked tag (skill_group db session_id tag)))

/-- The output shape of `get_aggregated_results` (src/database.py). -/
structure Aggregated where
  session_id : Nat
  topic : String
  subtopic : String
  participant_count : Nat
  overall_success_rate : Rat
  skill_breakdown : List SkillStat
  deriving DecidableEq, Repr

/-- `get_aggregated_results` (src/database.py): participation, per-skill
statistics, overall rate (0 when the session has no answer rows), session info. -/
def get_aggregated_results (db : DB) (session_id : Nat) : Aggregated :=
  let rows := db.results.filter (fun r => r.session_id == session_id)
  let participant_count := (rows.map (fun r => r.student_id)).dedup.length
  let skill_stats := get_skill_statistics db session_id
  let total := rows.length
  let correct := (rows.filter (fun r => r.is_correct)).length
  let overall_rate := if 0 < total then round1 ((correct : Rat) / (total : Rat) * 100) else 0
  let session := get_session db session_id
  { session_id := session_id,
    topic := match session with | some s => s.topic | none => "Unknown",
    subtopic := match session with | some s => s.subtopic | none => "Unknown",
    participant_count := participant_count,
    overall_success_rate := overall_rate,
    skill_breakdown := skill_stats }

/-- The overall-rate computation of `get_aggregated_results`, with the guarded
division made explicitly fallible. -/
def overall_rate_checked (total correct : Nat) : Option Rat :=
  if 0 < total then (sqlDiv (correct : Rat) (total : Rat)).map (fun q => round1 (q * 100))
  else some 0

/-- `get_aggregated_results` with every division checked for division by zero. -/
def get_aggregated_results_checked (db : DB) (session_id : Nat) : Option Aggregated :=
  let rows := db.results.filter (fun r => r.session_id == session_id)
  let total := rows.length
  let correct := (rows.filter (fun r => r.is_correct)).length
  match get_skill_statistics_checked db session_id, overall_rate_checked total correct with
  | some stats, some rate =>
      some { session_id := session_id,
             topic := match get_session db session_id with | some s => s.topic | none => "Unknown",
             subtopic := match get_session db session_id with | some s => s.subtopic | none => "Unknown",
             participant_count := (rows.map (fun r => r.student_id)).dedup.length,
             overall_success_rate := rate,
             skill_breakdown := stats }
  | _, _ => none

/-- Per-browser run state of one student (`init_session_state` /
`st.session_state` in src/app.py). -/
structure RunState where
  student_id : Option String
  current_question : Nat
  answers : List (Nat × String)
  quiz_started : Bool
  quiz_end_time : Option Int
  quiz_completed : Bool
  deriving DecidableEq, Repr

/-- The interaction that caused this run of the `student_quiz` view:
a plain (re)load, or the one Streamlit button reported as clicked. -/
inductive QuizEvent where
  | render
  | startQuiz
  | selectOption (question_id : Nat) (letter : String)
  | prevQuestion
  | nextQuestion
  | submitQuiz
  deriving DecidableEq, Repr

/-- What the `student_quiz` view ends up displaying for this run. -/
inductive Outcome where
  | invalidAccess
  | sessionNotFound
  | sessionEnded
  | completionScreen
  | noQuestions
  | startScreen
  | questionScreen (idx : Nat)
  | incompleteWarning
  deriving DecidableEq, Repr

/-- Does the outcome show the in-progress quiz UI (start button, a question,
or the incomplete-submit warning)? -/
def is_in_progress_view : Outcome → Bool
  | Outcome.startScreen => true
  | Outcome.questionScreen _ => true
  | Outcome.incompleteWarning => true
  | _ => false

/-- `st.session_state.answers[qid] = letter`: insertion-ordered dict update. -/
def dictInsert (k : Nat) (v : String) : List (Nat × String) → List (Nat × String)
  | [] => [(k, v)]
  | (k', v') :: rest => if k == k' then (k, v) :: rest else (k', v') :: dictInsert k v rest

/-- `submit_all_answers` (src/app.py): for every question of the set, look up
the student's selection (empty string when unanswered), fetch the correct
answer, compare, and INSERT one result row. -/
def submit_all_answers (db : DB) (session_id : Nat) (student_id : String)
    (answers : List (Nat × String)) (questions : List Question) : DB :=
  questions.foldl (fun acc q =>
    let selected := (answers.lookup q.id).getD ""
    let correct_answer := get_correct_answer acc q.id
    save_student_answer acc session_id student_id q.id selected (selected == correct_answer)) db

/-- The row `submit_all_answers` writes for one question. -/
def answer_row (qs : List Question) (session_id : Nat) (student_id : String)
    (answers : List (Nat × String)) (q : Question) : ResultRow :=
  let selected := (answers.lookup q.id).getD ""
  ⟨session_id, student_id, q.id, selected, selected == correct_answer_in qs q.id⟩

/-- The student id used by this run: the stored one, else the freshly
generated uuid fragment. -/
def effective_student (st : RunState) (fresh : String) : String :=
  match st.student_id with
  | some s => s
  | none => fresh

/-- The not-yet-started branch of `student_quiz` (src/app.py): the start
button sets `quiz_started`, a 5-minute deadline, pointer 0, empty selections. -/
def start_phase (db : DB) (st : RunState) (now : Int) (ev : QuizEvent) :
    DB × RunState × Outcome :=
  match ev with
  | QuizEvent.startQuiz =>
      (db, { st with quiz_started := true, quiz_end_time := some (now + 300),
                     current_question := 0, answers := [] }, Outcome.startScreen)
  | _ => (db, st, Outcome.startScreen)

/-- The question UI of `student_quiz` (src/app.py): option buttons overwrite
the selection, navigation clamps the pointer, and the submit button (rendered
only on the last question) refuses an incomplete answer set and otherwise
writes all answers and completes the run. -/
def run_phase (db : DB) (st : RunState) (session_id : Nat) (student : String)
    (questions : List Question) (ev : QuizEvent) : DB × RunState × Outcome :=
  match ev with
  | QuizEvent.selectOption qid letter =>
      (db, { st with answers := dictInsert qid letter st.answers },
       Outcome.questionScreen st.current_question)
  | QuizEvent.prevQuestion =>
      if 0 < st.current_question then
        (db, { st with current_question := st.current_question - 1 },
         Outcome.questionScreen (st.current_question - 1))
      else (db, st, Outcome.questionScreen st.current_question)
  | QuizEvent.nextQuestion =>
      if st.current_question < questions.length - 1 then
        (db, { st with current_question := st.current_question + 1 },
         Outcome.questionScreen (st.current_question + 1))
      else (db, st, Outcome.questionScreen st.current_question)
  | QuizEvent.submitQuiz =>
      if st.current_question < questions.length - 1 then
        (db, st, Outcome.questionScreen st.current_question)
      else if st.answers.length < questions.length then
        (db, st, Outcome.incompleteWarning)
      else
        (submit_all_answers db session_id student st.answers questions,
         { st with quiz_completed := true }, Outcome.completionScreen)
  | _ => (db, st, Outcome.questionScreen st.current_question)

/-- The timer block of `student_quiz` (src/app.py): when the remaining time
is non-positive, force-submit whatever selections exist and complete the run;
otherwise fall through to the question UI. -/
def timer_phase (db : DB) (st : RunState) (session_id : Nat) (student : String)
    (questions : List Question) (now : Int) (ev : QuizEvent) : DB × RunState × Outcome :=
  match st.quiz_end_time with
  | some endTime =>
      if endTime - now ≤ 0 then
        (submit_all_answers db session_id student st.answers questions,
         { st with quiz_completed := true }, Outcome.completionScreen)
      else run_phase db st session_id student questions ev
  | none => run_phase db st session_id student questions ev

/-- `student_quiz` (src/app.py), one full run of the view: guards in source
order (session param, session lookup, active flag, student id assignment,
completed check, question availability, started flag), then timer, then the
question UI reacting to the clicked button. -/
def student_quiz (db : DB) (st : RunState) (sessionParam : Option Nat)
    (now : Int) (fresh : String) (ev : QuizEvent) : DB × RunState × Outcome :=
  match sessionParam with
  | none => (db, st, Outcome.invalidAccess)
  | some session_id =>
    match get_session db session_id with
    | none => (db, st, Outcome.sessionNotFound)
    | some session =>
      if session.is_active = false then (db, st, Outcome.sessionEnded)
      else
        let student := effective_student st fresh
        let st1 := { st with student_id := some student }
        let st2 := if check_student_completed db session_id student then
                     { st1 with quiz_completed := true }
                   else st1
        if st2.quiz_completed then (db, st2, Outcome.completionScreen)
        else
          let questions := get_questions_for_student db "Business Plan"
          if questions.isEmpty then (db, st2, Outcome.noQuestions)
          else if st2.quiz_started = false then start_phase db st2 now ev
          else timer_phase db st2 session_id student questions now ev

/-- A store command, for stating that no operation resurrects a closed
session (src/database.py write operations). -/
inductive StoreOp where
  | createSessionOp (teacher_id topic subtopic : String)
  | closeSessionOp (session_id : Nat)
  | saveAnswerOp (session_id : Nat) (student_id : String)
      (question_id : Nat) (selected : String) (ok : Bool)
  deriving DecidableEq, Repr

/-- Apply one store command to the database state. -/
def apply_op (db : DB) : StoreOp → DB
  | StoreOp.createSessionOp t tp s => (create_session db t tp s).1
  | StoreOp.closeSessionOp sid => close_session db sid
  | StoreOp.saveAnswerOp sid stu qid sel ok => save_student_answer db sid stu qid sel ok

/-- The traffic-light indicator of the fallback report (src/ai_engine.py). -/
inductive Indicator where
  | green
  | yellow
  | red
  deriving DecidableEq, Repr

/-- Indicator thresholds of `generate_fallback_report` (src/ai_engine.py). -/
def indicator_of_rate (rate : Rat) : Indicator :=
  if rate ≥ 80 then Indicator.green
  else if rate ≥ 60 then Indicator.yellow
  else Indicator.red

/-- One appended fragment of the fallback report string
(src/ai_engine.py, `generate_fallback_report`), with its interpolated data. -/
inductive ReportItem where
  | header (topic subtopic : String) (participants : Nat) (overall : Rat)
  | skillLine (tag : String) (rate : Rat) (ind : Indicator)
  | focusArea (tag : String) (rate : Rat)
  | strength (tag : String) (rate : Rat)
  | reviewNote
  | advanceNote
  | noDataMessage
  | apiKeyFootnote
  deriving DecidableEq, Repr

/-- The sort key of `sorted(skill_breakdown, key=...success_rate)`. -/
def rate_le (a b : SkillStat) : Prop :=
  a.success_rate ≤ b.success_rate

instance : DecidableRel rate_le :=
  fun a b => inferInstanceAs (Decidable (a.success_rate ≤ b.success_rate))

instance : IsTotal SkillStat rate_le :=
  ⟨fun a b => le_total a.success_rate b.success_rate⟩

instance : IsTrans SkillStat rate_le :=
  ⟨fun _ _ _ hab hbc => le_trans hab hbc⟩

/-- Python's stable `sorted` by success rate, as a stable insertion sort. -/
def sort_skills (l : List SkillStat) : List SkillStat :=
  l.insertionSort rate_le

/-- `generate_fallback_report` (src/ai_engine.py) as the sequence of report
fragments it appends: header, one line per skill, the focus-area warning for
the weakest skill when below 70, the strength note for the strongest skill
when at least 80, the overall commentary below 60 or at least 80, footer. -/
def generate_fallback_report (agg : Aggregated) : List ReportItem :=
  if agg.skill_breakdown.isEmpty then [ReportItem.noDataMessage]
  else
    let sorted_skills := sort_skills agg.skill_breakdown
    let weakest := sorted_skills.head?
    let strongest := sorted_skills.getLast?
    [ReportItem.header agg.topic agg.subtopic agg.participant_count agg.overall_success_rate]
    ++ agg.skill_breakdown.map (fun s =>
         ReportItem.skillLine s.skill_tag s.success_rate (indicator_of_rate s.success_rate))
    ++ (match weakest with
        | some w =>
            if w.success_rate < 70 then [ReportItem.focusArea w.skill_tag w.success_rate] else []
        | none => [])
    ++ (match strongest with
        | some s =>
            if s.success_rate ≥ 80 then [ReportItem.strength s.skill_tag s.success_rate] else []
        | none => [])
    ++ (if agg.overall_success_rate < 60 then [ReportItem.reviewNote]
        else if agg.overall_success_rate ≥ 80 then [ReportItem.advanceNote] else [])
    ++ [ReportItem.apiKeyFootnote]

/-- Rewrite every question's text, leaving ids, answers, skill tags, topics
and options untouched: used to state that aggregation cannot leak text. -/
def set_question_texts (f : Question → String) (db : DB) : DB :=
  { db with questions := db.questions.map (fun q => { q with question_text := f q }) }

/-- `seed_business_plan_questions` (src/database.py): the five seeded
Business Plan questions, with their AUTOINCREMENT ids. -/
def seed_questions : List Question :=
  [⟨1, "Womit beginnt eine Geschäftsidee im Kern?", "C", "Geschäftsidee", "Business Plan",
    "A) Mit einem schönen Produkt|B) Mit einer hohen Gewinnerwartung|C) Mit einem Kundenproblem|D) Mit Werbung"⟩,
   ⟨2, "Was bedeutet \"Value Proposition\"?", "B", "Value Proposition", "Business Plan",
    "A) Das Logo des Unternehmens|B) Der zentrale Nutzen für den Kunden|C) Die Kostenstruktur des Unternehmens|D) Die Wettbewerber"⟩,
   ⟨3, "Wozu dient das Business Model Canvas?", "B", "Business Model Canvas", "Business Plan",
    "A) Zur Berechnung von Steuern|B) Zur strukturierten und visuellen Darstellung des Geschäftsmodells|C) Zur Produktgestaltung|D) Zur Erstellung eines Vertrags"⟩,
   ⟨4, "Was sind \"Revenue Streams\"?", "C", "Revenue Streams", "Business Plan",
    "A) Die Ausgaben eines Unternehmens|B) Die Mitarbeitenden|C) Die Einnahmequellen eines Unternehmens|D) Die Kundensegmente"⟩,
   ⟨5, "Warum ist das Gründerteam im Businessplan wichtig?", "B", "Gründerteam", "Business Plan",
    "A) Weil viele Gründer immer besser sind|B) Weil Investoren zuerst auf die Menschen schauen|C) Weil es gesetzlich vorgeschrieben ist|D) Weil das Team für Werbung zuständig ist"⟩]

/-- Fixture: an open session with one single-question Business Plan topic
and no submissions yet. -/
def wdbActive : DB :=
  { sessions := [⟨1, "teacher", "Business Plan", "Fundamental Components", true⟩],
    questions := [⟨1, "Q1", "A", "Skill1", "Business Plan", "A) x|B) y"⟩],
    results := [] }

/-- Fixture: the same state with the session closed. -/
def wdbClosed : DB :=
  { sessions := [⟨1, "teacher", "Business Plan", "Fundamental Components", false⟩],
    questions := [⟨1, "Q1", "A", "Skill1", "Business Plan", "A) x|B) y"⟩],
    results := [] }

/-- Fixture: the open session after student "stu" answered its question
correctly. -/
def wdbCompleted : DB :=
  { sessions := [⟨1, "teacher", "Business Plan", "Fundamental Components", true⟩],
    questions := [⟨1, "Q1", "A", "Skill1", "Business Plan", "A) x|B) y"⟩],
    results := [⟨1, "stu", 1, "A", true⟩] }

/-- Fixture: a run that started at time 0 (deadline 300) and selected "A". -/
def wRunStarted : RunState :=
  ⟨some "stu", 0, [(1, "A")], true, some 300, false⟩

/-- Fixture: a started run with no selections yet. -/
def wRunBlank : RunState :=
  ⟨some "stu", 0, [], true, some 300, false⟩

/-- Fixture: a fresh run state, as `init_session_state` builds it. -/
def wRunFresh : RunState :=
  ⟨none, 0, [], false, none, false⟩

/-- The skill breakdown of the specification's fallback example:
skill "A" at 40 percent, skill "B" at 90 percent. -/
def sampleBreakdown : List SkillStat :=
  [⟨"A", 10, 4, 40⟩, ⟨"B", 10, 9, 90⟩]

/-- The fallback example wrapped in the aggregation output shape, with an
overall rate in the no-commentary band. -/
def sampleAgg : Aggregated :=
  ⟨1, "Business Plan", "Fundamental Components", 3, 65, sampleBreakdown⟩

/-! Helper lemmas. -/

theorem round1_hundred : round1 100 = 100 := by
  have h : ⌊((100 : Rat) * 10 + 1 / 2)⌋ = (1000 : Int) := by
    rw [Int.floor_eq_iff]
    constructor
    · norm_num
    · norm_num
  rw [round1, h]
  norm_num

theorem round1_zero : round1 0 = 0 := by
  have h : ⌊((0 : Rat) * 10 + 1 / 2)⌋ = (0 : Int) := by
    rw [Int.floor_eq_iff]
    constructor
    · norm_num
    · norm_num
  rw [round1, h]
  norm_num

theorem submit_all_answers_questions (qs : List Question) :
    ∀ (db : DB) (sid : Nat) (stu : String) (ans : List (Nat × String)),
      (submit_all_answers db sid stu ans qs).questions = db.questions := by
  induction qs with
  | nil => intro db sid stu ans; rfl
  | cons q qs ih => intro db sid stu ans; exact ih _ sid stu ans

theorem submit_all_answers_sessions (qs : List Question) :
    ∀ (db : DB) (sid : Nat) (stu : String) (ans : List (Nat × String)),
      (submit_all_answers db sid stu ans qs).sessions = db.sessions := by
  induction qs with
  | nil => intro db sid stu ans; rfl
  | cons q qs ih => intro db sid stu ans; exact ih _ sid stu ans

theorem submit_all_answers_results (qs : List Question) :
    ∀ (db : DB) (sid : Nat) (stu : String) (ans : List (Nat × String)),
      (submit_all_answers db sid stu ans qs).results
        = db.results ++ qs.map (answer_row db.questions sid stu ans) := by
  induction qs with
  | nil => intro db sid stu ans; simp [submit_all_answers]
  | cons q qs ih =>
      intro db sid stu ans
      have step :
          submit_all_answers db sid stu ans (q :: qs)
            = submit_all_answers
                (save_student_answer db sid stu q.id ((ans.lookup q.id).getD "")
                  (((ans.lookup q.id).getD "") == get_correct_answer db q.id)) sid stu ans qs := rfl
      rw [step, ih]
      simp [save_student_answer, answer_row, get_correct_answer, List.append_assoc]

theorem correct_answer_in_ne_empty (db : DB) (q : Question)
    (hall : ∀ p ∈ db.questions, p.correct_answer ≠ "") (hq : q ∈ db.questions) :
    correct_answer_in db.questions q.id ≠ "" := by
  unfold correct_answer_in
  cases hfind : db.questions.find? (fun p => p.id == q.id) with
  | none =>
      exfalso
      have := List.find?_eq_none.mp hfind q hq
      simp at this
  | some p => exact hall p (List.mem_of_find?_eq_some hfind)

theorem answer_row_unanswered (qs : List Question) (sid : Nat) (stu : String)
    (ans : List (Nat × String)) (q : Question)
    (hnone : ans.lookup q.id = none) (hcor : correct_answer_in qs q.id ≠ "") :
    answer_row qs sid stu ans q = ⟨sid, stu, q.id, "", false⟩ := by
  unfold answer_row
  rw [hnone]
  have : ("" == correct_answer_in qs q.id) = false := beq_eq_false_iff_ne.mpr (Ne.symm hcor)
  simp [this]

theorem find?_map_eq {α β : Type} (f : α → β) (p : β → Bool) (q : α → Bool)
    (hpq : ∀ a, p (f a) = q a) :
    ∀ l : List α, (l.map f).find? p = (l.find? q).map f := by
  intro l
  induction l with
  | nil => rfl
  | cons a l ih =>
      simp only [List.map_cons]
      cases hqa : q a with
      | true =>
          rw [List.find?_cons_of_pos _ ((hpq a).trans hqa), List.find?_cons_of_pos _ hqa]
          rfl
      | false => rw [List.find?_cons_of_neg _ (by simp [hpq a, hqa]),
                     List.find?_cons_of_neg _ (by simp [hqa]), ih]

theorem find?_append_of_none {α : Type} (p : α → Bool) (l1 l2 : List α)
    (h : l1.find? p = none) : (l1 ++ l2).find? p = l2.find? p := by
  induction l1 with
  | nil => rfl
  | cons a l1 ih =>
      cases hpa : p a with
      | true => rw [List.find?_cons_of_pos _ hpa] at h; cases h
      | false =>
          rw [List.find?_cons_of_neg _ (by simp [hpa])] at h
          rw [List.cons_append, List.find?_cons_of_neg _ (by simp [hpa]), ih h]

theorem find?_append_of_some {α : Type} (p : α → Bool) (l1 l2 : List α) (x : α)
    (h : l1.find? p = some x) : (l1 ++ l2).find? p = some x := by
  induction l1 with
  | nil => cases h
  | cons a l1 ih =>
      cases hpa : p a with
      | true =>
          rw [List.find?_cons_of_pos _ hpa] at h
          rw [List.cons_append, List.find?_cons_of_pos _ hpa]
          exact h
      | false =>
          rw [List.find?_cons_of_neg _ (by simp [hpa])] at h
          rw [List.cons_append, List.find?_cons_of_neg _ (by simp [hpa]), ih h]

theorem foldl_max_init_le (l : List SessionRow) :
    ∀ a : Nat, a ≤ l.foldl (fun m s => max m s.id) a := by
  induction l with
  | nil => intro a; exact le_refl a
  | cons x l ih => intro a; exact le_trans (le_max_left a x.id) (ih (max a x.id))

theorem mem_le_foldl_max (l : List SessionRow) :
    ∀ (a : Nat) (s : SessionRow), s ∈ l → s.id ≤ l.foldl (fun m s => max m s.id) a := by
  induction l with
  | nil => intro a s hs; cases hs
  | cons x l ih =>
      intro a s hs
      cases hs with
      | head => exact le_trans (le_max_right a x.id) (foldl_max_init_le l (max a x.id))
      | tail _ hmem => exact ih (max a x.id) s hmem

theorem mem_id_le_maxSessionId (db : DB) (s : SessionRow) (hs : s ∈ db.sessions) :
    s.id ≤ maxSessionId db :=
  mem_le_foldl_max db.sessions 0 s hs

theorem skill_group_length_pos (db : DB) (sid : Nat) (tag : String)
    (h : tag ∈ session_skill_tags db sid) : 0 < (skill_group db sid tag).length := by
  unfold session_skill_tags at h
  have h2 := List.mem_dedup.mp h
  obtain ⟨p, hp, htag⟩ := List.mem_map.mp h2
  have hmem : p ∈ skill_group db sid tag :=
    List.mem_filter.mpr ⟨hp, by simp [htag]⟩
  exact List.length_pos.mpr (List.ne_nil_of_mem hmem)

theorem optionList_map_some {α β : Type} (f : β → Option α) (g : β → α) :
    ∀ l : List β, (∀ b ∈ l, f b = some (g b)) → optionList (l.map f) = some (l.map g) := by
  intro l
  induction l with
  | nil => intro _; rfl
  | cons b l ih =>
      intro h
      have hb := h b (List.mem_cons_self b l)
      have hrest := ih (fun x hx => h x (List.mem_cons_of_mem b hx))
      simp only [List.map_cons, optionList, hb, hrest]
      rfl

theorem stat_of_group_checked_some (tag : String) (rows : List (ResultRow × Question))
    (h : 0 < rows.length) :
    stat_of_group_checked tag rows = some (stat_of_group tag rows) := by
  have hne : (rows.length : Rat) ≠ 0 := Nat.cast_ne_zero.mpr (Nat.pos_iff_ne_zero.mp h)
  simp [stat_of_group_checked, stat_of_group, sqlDiv, hne]

theorem get_skill_statistics_checked_some (db : DB) (sid : Nat) :
    get_skill_statistics_checked db sid = some (get_skill_statistics db sid) := by
  unfold get_skill_statistics_checked get_skill_statistics
  exact optionList_map_some _ _ _
    (fun tag htag => stat_of_group_checked_some tag _ (skill_group_length_pos db sid tag htag))

theorem get_aggregated_results_checked_some (db : DB) (sid : Nat) :
    get_aggregated_results_checked db sid = some (get_aggregated_results db sid) := by
  unfold get_aggregated_results_checked get_aggregated_results overall_rate_checked
  rw [get_skill_statistics_checked_some]
  by_cases h : 0 < (db.results.filter (fun r => r.session_id == sid)).length
  · have hne : ((db.results.filter (fun r => r.session_id == sid)).length : Rat) ≠ 0 :=
      Nat.cast_ne_zero.mpr (Nat.pos_iff_ne_zero.mp h)
    simp [h, sqlDiv, hne]
  · simp [h]

theorem filterMap_pair_map (g : Question → Question) (F : ResultRow → Option Question) :
    ∀ rows : List ResultRow,
      rows.filterMap (fun r => ((F r).map g).map (fun q => (r, q)))
        = (rows.filterMap (fun r => (F r).map (fun q => (r, q)))).map
            (fun p => (p.1, g p.2)) := by
  intro rows
  induction rows with
  | nil => rfl
  | cons r rows ih =>
      cases hF : F r with
      | none =>
          simp only [List.filterMap_cons, hF, Option.map_none]
          simpa [Option.map_map] using ih
      | some q =>
          simp [List.filterMap_cons, hF]
          simpa [Option.map_map] using ih

theorem joined_rows_retext (f : Question → String) (db : DB) (sid : Nat) :
    joined_rows (set_question_texts f db) sid
      = (joined_rows db sid).map (fun p => (p.1, { p.2 with question_text := f p.2 })) := by
  unfold joined_rows
  have hres : (set_question_texts f db).results = db.results := rfl
  have hqs : (set_question_texts f db).questions
      = db.questions.map (fun q => { q with question_text := f q }) := rfl
  rw [hres, hqs]
  have hfun : (fun r : ResultRow =>
        ((db.questions.map (fun q => { q with question_text := f q })).find?
            (fun q => q.id == r.question_id)).map (fun q => (r, q)))
      = fun r : ResultRow =>
        (((db.questions.find? (fun q => q.id == r.question_id)).map
            (fun q => { q with question_text := f q })).map (fun q => (r, q))) := by
    funext r
    exact congrArg (Option.map (fun q => (r, q)))
      (find?_map_eq _ _ _ (fun a => rfl) db.questions)
  rw [hfun, filterMap_pair_map]

theorem get_skill_statistics_retext (f : Question → String) (db : DB) (sid : Nat) :
    get_skill_statistics (set_question_texts f db) sid = get_skill_statistics db sid := by
  unfold get_skill_statistics session_skill_tags skill_group stat_of_group
  rw [joined_rows_retext]
  simp only [List.map_map, List.filter_map, List.length_map]
  rfl

theorem get_aggregated_results_retext (f : Question → String) (db : DB) (sid : Nat) :
    get_aggregated_results (set_question_texts f db) sid = get_aggregated_results db sid := by
  have h := get_skill_statistics_retext f db sid
  simp only [get_aggregated_results, h]
  rfl

theorem sort_skills_sorted (l : List SkillStat) : List.Sorted rate_le (sort_skills l) :=
  List.sorted_insertionSort rate_le l

theorem sort_skills_perm (l : List SkillStat) : (sort_skills l).Perm l :=
  List.perm_insertionSort rate_le l

theorem sort_skills_head_min (l : List SkillStat) (w : SkillStat)
    (hw : (sort_skills l).head? = some w) :
    w ∈ l ∧ ∀ t ∈ l, w.success_rate ≤ t.success_rate := by
  cases hsl : sort_skills l with
  | nil => rw [hsl] at hw; cases hw
  | cons a rest =>
      rw [hsl] at hw
      have ha : a = w := by injection hw
      subst ha
      constructor
      · exact (sort_skills_perm l).mem_iff.mp (by rw [hsl]; exact List.mem_cons_self a rest)
      · intro t ht
        have ht' : t ∈ sort_skills l := (sort_skills_perm l).mem_iff.mpr ht
        rw [hsl] at ht'
        have hsorted := sort_skills_sorted l
        rw [hsl] at hsorted
        rcases List.mem_cons.mp ht' with h1 | h2
        · rw [h1]
        · exact List.rel_of_sorted_cons hsorted t h2

theorem getLast?_mem_of_eq_some {α : Type} :
    ∀ (l : List α) (x : α), l.getLast? = some x → x ∈ l := by
  intro l
  induction l with
  | nil => intro x h; cases h
  | cons a rest ih =>
      intro x h
      cases rest with
      | nil =>
          have : a = x := by simpa using h
          rw [this]
          exact List.mem_cons_self x []
      | cons b rest2 =>
          rw [List.getLast?_cons_cons] at h
          exact List.mem_cons_of_mem a (ih x h)

theorem sorted_le_getLast :
    ∀ (l : List SkillStat), List.Sorted rate_le l →
      ∀ (s : SkillStat), l.getLast? = some s → ∀ t ∈ l, t.success_rate ≤ s.success_rate := by
  intro l
  induction l with
  | nil => intro _ s hs; cases hs
  | cons a rest ih =>
      intro hsorted s hlast t ht
      cases rest with
      | nil =>
          have hsa : a = s := by simpa using hlast
          rcases List.mem_singleton.mp ht with rfl
          rw [hsa]
      | cons b rest2 =>
          rw [List.getLast?_cons_cons] at hlast
          rcases List.mem_cons.mp ht with rfl | hmem
          · exact List.rel_of_sorted_cons hsorted s (getLast?_mem_of_eq_some _ s hlast)
          · exact ih hsorted.of_cons s hlast t hmem

theorem sort_skills_getLast_max (l : List SkillStat) (s : SkillStat)
    (hs : (sort_skills l).getLast? = some s) :
    s ∈ l ∧ ∀ t ∈ l, t.success_rate ≤ s.success_rate := by
  constructor
  · exact (sort_skills_perm l).mem_iff.mp (getLast?_mem_of_eq_some _ s hs)
  · intro t ht
    exact sorted_le_getLast (sort_skills l) (sort_skills_sorted l) s hs t
      ((sort_skills_perm l).mem_iff.mpr ht)

theorem lookup_isSome_of_mem_keys (k : Nat) :
    ∀ ans : List (Nat × String), k ∈ ans.map Prod.fst → (ans.lookup k).isSome = true := by
  intro ans
  induction ans with
  | nil => intro h; cases h
  | cons p ans ih =>
      intro h
      rcases List.mem_cons.mp h with h1 | h2
      · cases p with
        | mk k' v => simp at h1; simp [List.lookup, h1]
      · cases p with
        | mk k' v =>
          cases hk : k == k' with
          | true => simp [List.lookup, hk]
          | false => simp only [List.lookup, hk]; exact ih h2

theorem mem_of_nodup_subset_length (ids keys : List Nat) (hk : keys.Nodup) (hi : ids.Nodup)
    (hsub : ∀ x ∈ keys, x ∈ ids) (hlen : ids.length ≤ keys.length) :
    ∀ i ∈ ids, i ∈ keys := by
  have hsub' : keys.toFinset ⊆ ids.toFinset := by
    intro x hx
    exact List.mem_toFinset.mpr (hsub x (List.mem_toFinset.mp hx))
  have hcard : ids.toFinset.card ≤ keys.toFinset.card := by
    rw [List.toFinset_card_of_nodup hk, List.toFinset_card_of_nodup hi]
    exact hlen
  have heq : keys.toFinset = ids.toFinset := Finset.eq_of_subset_of_card_le hsub' hcard
  intro i hi2
  have h3 : i ∈ ids.toFinset := List.mem_toFinset.mpr hi2
  rw [← heq] at h3
  exact List.mem_toFinset.mp h3

/-! Claim theorems. -/

/-- C2: the skill-statistics and aggregation outputs never contain the
question text: both are invariant under arbitrary rewriting of every stored
question text, and every returned record is a `SkillStat` carrying only the
skill tag, the total answer count, the correct answer count and the success
rate. -/
theorem skill_statistics_never_return_question_text :
    ∀ (db : DB) (f : Question → String) (sid : Nat),
      get_skill_statistics (set_question_texts f db) sid = get_skill_statistics db sid ∧
      get_aggregated_results (set_question_texts f db) sid = get_aggregated_results db sid ∧
      (get_aggregated_results db sid).skill_breakdown = get_skill_statistics db sid :=
  fun db f sid =>
    ⟨get_skill_statistics_retext f db sid, get_aggregated_results_retext f db sid, rfl⟩

/-- C4: for a session with zero answer records the aggregation returns an
overall success rate of 0 and an empty per-skill breakdown, and the checked
variant (where every division is explicitly fallible) succeeds — no
division-by-zero error occurs in the overall or any per-skill computation. -/
theorem aggregate_empty_session_safe :
    ∀ (db : DB) (sid : Nat),
      db.results.filter (fun r => r.session_id == sid) = [] →
      (get_aggregated_results db sid).overall_success_rate = 0 ∧
      (get_aggregated_results db sid).skill_breakdown = [] ∧
      get_aggregated_results_checked db sid = some (get_aggregated_results db sid) := by
  intro db sid h
  refine ⟨?_, ?_, get_aggregated_results_checked_some db sid⟩
  · simp [get_aggregated_results, h]
  · simp [get_aggregated_results, get_skill_statistics, session_skill_tags, joined_rows, h]

/-- Witness for C4 at a concrete session with no answers. -/
theorem aggregate_empty_session_safe_witness :
    wdbActive.results.filter (fun r => r.session_id == 1) = [] ∧
    ((get_aggregated_results wdbActive 1).overall_success_rate = 0 ∧
     (get_aggregated_results wdbActive 1).skill_breakdown = [] ∧
     get_aggregated_results_checked wdbActive 1 = some (get_aggregated_results wdbActive 1)) :=
  ⟨by decide, aggregate_empty_session_safe wdbActive 1 (by decide)⟩

/-- C10: once a session's active flag is false, every run of the student
quiz view returns the session-ended notice with the store and the run state
untouched — neither a manual nor a deadline-forced submit can write answer
records into a closed session through the quiz flow. -/
theorem closed_session_blocks_all_writes :
    ∀ (db : DB) (st : RunState) (sid : Nat) (session : SessionRow) (now : Int)
      (fresh : String) (ev : QuizEvent),
      get_session db sid = some session → session.is_active = false →
      student_quiz db st (some sid) now fresh ev = (db, st, Outcome.sessionEnded) := by
  intro db st sid session now fresh ev hsess hact
  simp [student_quiz, hsess, hact]

/-- Witness for C10: a closed session with an in-flight expired run and a
submit click still changes nothing. -/
theorem closed_session_blocks_all_writes_witness :
    get_session wdbClosed 1
        = some ⟨1, "teacher", "Business Plan", "Fundamental Components", false⟩ ∧
    student_quiz wdbClosed wRunStarted (some 1) 400 "f" QuizEvent.submitQuiz
      = (wdbClosed, wRunStarted, Outcome.sessionEnded) :=
  ⟨by decide,
   closed_session_blocks_all_writes wdbClosed wRunStarted 1
     ⟨1, "teacher", "Business Plan", "Fundamental Components", false⟩ 400 "f"
     QuizEvent.submitQuiz (by decide) (by decide)⟩

/-- C8: a session is created with the active flag true; no store operation
turns an inactive session active again; and closing an already-closed
session is an idempotent no-op. -/
theorem session_active_only_true_to_false :
    ∀ (db : DB) (t tp sb : String) (sid : Nat) (op : StoreOp),
      (get_session (create_session db t tp sb).1 (create_session db t tp sb).2
        = some ⟨(create_session db t tp sb).2, t, tp, sb, true⟩) ∧
      (∀ sess : SessionRow, get_session db sid = some sess → sess.is_active = false →
        ∃ sess' : SessionRow, get_session (apply_op db op) sid = some sess'
          ∧ sess'.is_active = false) ∧
      close_session (close_session db sid) sid = close_session db sid := by
  intro db t tp sb sid op
  refine ⟨?_, ?_, ?_⟩
  · have hnone : db.sessions.find? (fun s => s.id == maxSessionId db + 1) = none := by
      apply List.find?_eq_none.mpr
      intro s hs
      have hle := mem_id_le_maxSessionId db s hs
      simp only [beq_iff_eq]
      omega
    show (db.sessions ++ [(⟨maxSessionId db + 1, t, tp, sb, true⟩ : SessionRow)]).find?
        (fun s => s.id == maxSessionId db + 1) = _
    rw [find?_append_of_none _ _ _ hnone]
    simp [List.find?_cons_of_pos]
    rfl
  · intro sess hsess hina
    cases op with
    | createSessionOp t2 tp2 sb2 =>
        exact ⟨sess, find?_append_of_some _ _ _ _ hsess, hina⟩
    | closeSessionOp sid2 =>
        refine ⟨(if sess.id == sid2 then { sess with is_active := false } else sess :
            SessionRow), ?_, ?_⟩
        · have hsess' : db.sessions.find? (fun s => s.id == sid) = some sess := hsess
          have hmapeq := find?_map_eq
            (fun s : SessionRow => if s.id == sid2 then { s with is_active := false } else s)
            (fun s : SessionRow => s.id == sid) (fun s : SessionRow => s.id == sid)
            (fun s => by by_cases h : s.id == sid2 <;> simp [h]) db.sessions
          show (db.sessions.map (fun s =>
              if s.id == sid2 then { s with is_active := false } else s)).find?
              (fun s => s.id == sid) = _
          rw [hmapeq, hsess']
          rfl
        · by_cases h : sess.id == sid2 <;> simp [h, hina]
    | saveAnswerOp sid3 stu qid sel ok => exact ⟨sess, hsess, hina⟩
  · show DB.mk ((db.sessions.map _).map _) _ _ = DB.mk (db.sessions.map _) _ _
    rw [List.map_map]
    congr 1
    apply List.map_congr_left
    intro s _
    by_cases h : s.id == sid <;> simp [Function.comp, h]

/-- Witness for C8's inactive-stays-inactive conjunct: closing an
already-closed session keeps it inactive. -/
theorem session_active_only_true_to_false_witness :
    get_session wdbClosed 1
        = some ⟨1, "teacher", "Business Plan", "Fundamental Components", false⟩ ∧
    (∃ sess' : SessionRow,
      get_session (apply_op wdbClosed (StoreOp.closeSessionOp 1)) 1 = some sess'
        ∧ sess'.is_active = false) :=
  ⟨by decide,
   (session_active_only_true_to_false wdbClosed "t" "tp" "s" 1 (StoreOp.closeSessionOp 1)).2.1
     ⟨1, "teacher", "Business Plan", "Fundamental Components", false⟩ (by decide) (by decide)⟩

/-- C1, evaluated at the failing input: firing the submission path twice for
the same (session, student) pair leaves two answer rows for the same
(session, student, question) triple — the plain INSERT of
`save_student_answer` accepts duplicates, so the at-most-one-row-per-triple
claim fails on the code. -/
theorem double_submit_duplicates_rows :
    ((submit_all_answers (submit_all_answers wdbActive 1 "stu" [(1, "A")]
          (get_questions_for_student wdbActive "Business Plan")) 1 "stu" [(1, "A")]
          (get_questions_for_student wdbActive "Business Plan")).results.filter
        (fun r => r.session_id == 1 && r.student_id == "stu" && r.question_id == 1)).length
      = 2 := by
  decide

/-- C5: every record of the skill statistics has a positive total, at most
that many correct answers, and a success rate equal to
round(correct/total × 100) to one decimal place; all-correct skills score
exactly 100 and all-wrong skills exactly 0. -/
theorem skill_statistics_rate_formula :
    ∀ (db : DB) (sid : Nat) (stat : SkillStat), stat ∈ get_skill_statistics db sid →
      0 < stat.total_answers ∧
      stat.correct_answers ≤ stat.total_answers ∧
      stat.success_rate
        = round1 ((stat.correct_answers : Rat) / (stat.total_answers : Rat) * 100) ∧
      (stat.correct_answers = stat.total_answers → stat.success_rate = 100) ∧
      (stat.correct_answers = 0 → stat.success_rate = 0) := by
  intro db sid stat hmem
  rcases List.mem_map.mp hmem with ⟨tag, htag, heq⟩
  subst heq
  have hpos : 0 < (skill_group db sid tag).length := skill_group_length_pos db sid tag htag
  refine ⟨hpos, List.length_filter_le _ _, rfl, ?_, ?_⟩
  · intro h
    have h' : ((skill_group db sid tag).filter (fun p => p.1.is_correct)).length
        = (skill_group db sid tag).length := h
    show round1 _ = 100
    rw [h']
    have hne : (((skill_group db sid tag).length : Rat)) ≠ 0 :=
      Nat.cast_ne_zero.mpr (Nat.pos_iff_ne_zero.mp hpos)
    rw [div_self hne, one_mul]
    exact round1_hundred
  · intro h
    have h' : ((skill_group db sid tag).filter (fun p => p.1.is_correct)).length = 0 := h
    show round1 _ = 0
    rw [h']
    rw [Nat.cast_zero, zero_div, zero_mul]
    exact round1_zero

/-- Witness for C5 on a session whose single skill has one correct answer. -/
theorem skill_statistics_rate_formula_witness :
    stat_of_group "Skill1" (skill_group wdbCompleted 1 "Skill1")
        ∈ get_skill_statistics wdbCompleted 1 ∧
    (0 < (stat_of_group "Skill1" (skill_group wdbCompleted 1 "Skill1")).total_answers ∧
     (stat_of_group "Skill1" (skill_group wdbCompleted 1 "Skill1")).correct_answers
       ≤ (stat_of_group "Skill1" (skill_group wdbCompleted 1 "Skill1")).total_answers ∧
     (stat_of_group "Skill1" (skill_group wdbCompleted 1 "Skill1")).success_rate
       = round1 (((stat_of_group "Skill1" (skill_group wdbCompleted 1 "Skill1")).correct_answers : Rat)
           / ((stat_of_group "Skill1" (skill_group wdbCompleted 1 "Skill1")).total_answers : Rat) * 100) ∧
     ((stat_of_group "Skill1" (skill_group wdbCompleted 1 "Skill1")).correct_answers
         = (stat_of_group "Skill1" (skill_group wdbCompleted 1 "Skill1")).total_answers →
       (stat_of_group "Skill1" (skill_group wdbCompleted 1 "Skill1")).success_rate = 100) ∧
     ((stat_of_group "Skill1" (skill_group wdbCompleted 1 "Skill1")).correct_answers = 0 →
       (stat_of_group "Skill1" (skill_group wdbCompleted 1 "Skill1")).success_rate = 0)) := by
  have hmem : stat_of_group "Skill1" (skill_group wdbCompleted 1 "Skill1")
      ∈ get_skill_statistics wdbCompleted 1 := by
    have h : get_skill_statistics wdbCompleted 1
        = [stat_of_group "Skill1" (skill_group wdbCompleted 1 "Skill1")] := rfl
    rw [h]
    exact List.mem_singleton.mpr rfl
  exact ⟨hmem, skill_statistics_rate_formula wdbCompleted 1 _ hmem⟩

/-- C9: for any non-empty skill breakdown the fallback report flags a
minimal-rate skill as the focus area when its rate is below 70, flags a
maximal-rate skill as a strength when its rate is at least 80, and adds the
overall commentary below 60 or at or above 80; on the specification's
example (A at 40, B at 90) the report is exactly: header, the two skill
lines, focus area A, strength B, footer. -/
theorem fallback_report_flags :
    (∀ agg : Aggregated, agg.skill_breakdown ≠ [] →
      ∃ w s : SkillStat,
        (sort_skills agg.skill_breakdown).head? = some w ∧
        (sort_skills agg.skill_breakdown).getLast? = some s ∧
        w ∈ agg.skill_breakdown ∧ s ∈ agg.skill_breakdown ∧
        (∀ t ∈ agg.skill_breakdown, w.success_rate ≤ t.success_rate) ∧
        (∀ t ∈ agg.skill_breakdown, t.success_rate ≤ s.success_rate) ∧
        (w.success_rate < 70 →
          ReportItem.focusArea w.skill_tag w.success_rate ∈ generate_fallback_report agg) ∧
        (80 ≤ s.success_rate →
          ReportItem.strength s.skill_tag s.success_rate ∈ generate_fallback_report agg) ∧
        (agg.overall_success_rate < 60 →
          ReportItem.reviewNote ∈ generate_fallback_report agg) ∧
        (80 ≤ agg.overall_success_rate →
          ReportItem.advanceNote ∈ generate_fallback_report agg)) ∧
    generate_fallback_report sampleAgg
      = [ReportItem.header "Business Plan" "Fundamental Components" 3 65,
         ReportItem.skillLine "A" 40 Indicator.red,
         ReportItem.skillLine "B" 90 Indicator.green,
         ReportItem.focusArea "A" 40,
         ReportItem.strength "B" 90,
         ReportItem.apiKeyFootnote] := by
  constructor
  · intro agg hne
    have hempty : agg.skill_breakdown.isEmpty = false := by
      cases hb : agg.skill_breakdown with
      | nil => exact absurd hb hne
      | cons a l => rfl
    have hsortne : sort_skills agg.skill_breakdown ≠ [] := by
      intro hnil
      have hlen := congrArg List.length hnil
      rw [sort_skills, List.length_insertionSort] at hlen
      exact hne (List.length_eq_zero.mp hlen)
    obtain ⟨w, hw⟩ : ∃ w, (sort_skills agg.skill_breakdown).head? = some w := by
      cases hsl : sort_skills agg.skill_breakdown with
      | nil => exact absurd hsl hsortne
      | cons a rest => exact ⟨a, rfl⟩
    obtain ⟨s, hs⟩ : ∃ s, (sort_skills agg.skill_breakdown).getLast? = some s := by
      cases hsl : sort_skills agg.skill_breakdown with
      | nil => exact absurd hsl hsortne
      | cons a rest => exact ⟨(a :: rest).getLast (by simp), List.getLast?_eq_getLast _ _⟩
    obtain ⟨hwmem, hwmin⟩ := sort_skills_head_min agg.skill_breakdown w hw
    obtain ⟨hsmem, hsmax⟩ := sort_skills_getLast_max agg.skill_breakdown s hs
    refine ⟨w, s, hw, hs, hwmem, hsmem, hwmin, hsmax, ?_, ?_, ?_, ?_⟩
    · intro h70
      simp [generate_fallback_report, hempty, hw, h70]
    · intro h80
      simp [generate_fallback_report, hempty, hs, h80]
    · intro h60
      simp [generate_fallback_report, hempty, h60]
    · intro h80
      have h60 : ¬ agg.overall_success_rate < 60 :=
        not_lt.mpr (le_trans (by norm_num) h80)
      simp [generate_fallback_report, hempty, h60, h80]
  · decide

/-- Witness for C9 at the specification's example breakdown. -/
theorem fallback_report_flags_witness :
    sampleAgg.skill_breakdown ≠ [] ∧
    (∃ w s : SkillStat,
      (sort_skills sampleAgg.skill_breakdown).head? = some w ∧
      (sort_skills sampleAgg.skill_breakdown).getLast? = some s ∧
      w ∈ sampleAgg.skill_breakdown ∧ s ∈ sampleAgg.skill_breakdown ∧
      (∀ t ∈ sampleAgg.skill_breakdown, w.success_rate ≤ t.success_rate) ∧
      (∀ t ∈ sampleAgg.skill_breakdown, t.success_rate ≤ s.success_rate) ∧
      (w.success_rate < 70 →
        ReportItem.focusArea w.skill_tag w.success_rate ∈ generate_fallback_report sampleAgg) ∧
      (80 ≤ s.success_rate →
        ReportItem.strength s.skill_tag s.success_rate ∈ generate_fallback_report sampleAgg) ∧
      (sampleAgg.overall_success_rate < 60 →
        ReportItem.reviewNote ∈ generate_fallback_report sampleAgg) ∧
      (80 ≤ sampleAgg.overall_success_rate →
        ReportItem.advanceNote ∈ generate_fallback_report sampleAgg)) :=
  ⟨by decide, fallback_report_flags.1 sampleAgg (by decide)⟩

/-- C3: whenever an in-progress run is observed in an active session with
its deadline at or past now, the view force-submits: it appends exactly one
answer row per question of the topic's set (unanswered questions as an
empty selection scored incorrect, given that no stored correct answer is
the empty string), marks the run completed, and shows the completion
screen. -/
theorem deadline_forces_blank_submission :
    ∀ (db : DB) (st : RunState) (sid : Nat) (session : SessionRow) (student : String)
      (now endTime : Int) (fresh : String) (ev : QuizEvent),
      get_session db sid = some session →
      session.is_active = true →
      st.student_id = some student →
      check_student_completed db sid student = false →
      st.quiz_completed = false →
      st.quiz_started = true →
      st.quiz_end_time = some endTime →
      endTime - now ≤ 0 →
      (get_questions_for_student db "Business Plan").isEmpty = false →
      (∀ q ∈ db.questions, q.correct_answer ≠ "") →
      (student_quiz db st (some sid) now fresh ev).1.results
          = db.results ++ (get_questions_for_student db "Business Plan").map
              (answer_row db.questions sid student st.answers) ∧
      (student_quiz db st (some sid) now fresh ev).2.1.quiz_completed = true ∧
      (student_quiz db st (some sid) now fresh ev).2.2 = Outcome.completionScreen ∧
      (∀ q ∈ get_questions_for_student db "Business Plan", st.answers.lookup q.id = none →
        answer_row db.questions sid student st.answers q
          = ⟨sid, student, q.id, "", false⟩) := by
  intro db st sid session student now endTime fresh ev
  intro h1 h2 h3 h4 h5 h6 h7 h8 h9 h10
  have hstep : student_quiz db st (some sid) now fresh ev
      = (submit_all_answers db sid student st.answers
           (get_questions_for_student db "Business Plan"),
         { st with student_id := some student, quiz_completed := true },
         Outcome.completionScreen) := by
    simp [student_quiz, effective_student, timer_phase, h1, h2, h3, h4, h5, h6, h7, h8, h9]
  refine ⟨?_, ?_, ?_, ?_⟩
  · rw [hstep]
    exact submit_all_answers_results _ db sid student st.answers
  · rw [hstep]
  · rw [hstep]
  · intro q hq hnone
    exact answer_row_unanswered db.questions sid student st.answers q hnone
      (correct_answer_in_ne_empty db q h10 (List.mem_filter.mp hq).1)

/-- Witness for C3: a started, unanswered run observed past its deadline in
an open session gets one blank incorrect row for its question. -/
theorem deadline_forces_blank_submission_witness :
    get_session wdbActive 1
        = some ⟨1, "teacher", "Business Plan", "Fundamental Components", true⟩ ∧
    ((student_quiz wdbActive wRunBlank (some 1) 400 "f" QuizEvent.render).1.results
        = wdbActive.results ++ (get_questions_for_student wdbActive "Business Plan").map
            (answer_row wdbActive.questions 1 "stu" wRunBlank.answers) ∧
     (student_quiz wdbActive wRunBlank (some 1) 400 "f" QuizEvent.render).2.1.quiz_completed
        = true ∧
     (student_quiz wdbActive wRunBlank (some 1) 400 "f" QuizEvent.render).2.2
        = Outcome.completionScreen ∧
     (∀ q ∈ get_questions_for_student wdbActive "Business Plan",
        wRunBlank.answers.lookup q.id = none →
        answer_row wdbActive.questions 1 "stu" wRunBlank.answers q
          = ⟨1, "stu", q.id, "", false⟩)) :=
  ⟨by decide,
   deadline_forces_blank_submission wdbActive wRunBlank 1
     ⟨1, "teacher", "Business Plan", "Fundamental Components", true⟩ "stu" 400 300 "f"
     QuizEvent.render (by decide) (by decide) (by decide) (by decide) (by decide)
     (by decide) (by decide) (by decide) (by decide) (by decide)⟩

/-- C6: a student with existing answer records for an active session is
routed straight to the completion screen with the store untouched, and the
in-progress quiz UI is reachable only when the session exists, is active,
and the student's completed-check is negative. -/
theorem completed_student_entry_guard :
    ∀ (db : DB) (st : RunState) (sid : Nat) (now : Int) (fresh : String) (ev : QuizEvent),
      (∀ (session : SessionRow) (student : String),
        get_session db sid = some session → session.is_active = true →
        st.student_id = some student → check_student_completed db sid student = true →
        student_quiz db st (some sid) now fresh ev
          = (db, { st with student_id := some student, quiz_completed := true },
             Outcome.completionScreen)) ∧
      (is_in_progress_view (student_quiz db st (some sid) now fresh ev).2.2 = true →
        ∃ session : SessionRow, get_session db sid = some session ∧
          session.is_active = true ∧
          check_student_completed db sid (effective_student st fresh) = false) := by
  intro db st sid now fresh ev
  constructor
  · intro session student h1 h2 h3 h4
    simp [student_quiz, effective_student, h1, h2, h3, h4]
  · intro h
    obtain ⟨session, hsess⟩ : ∃ session, get_session db sid = some session := by
      cases hsess : get_session db sid with
      | none => simp [student_quiz, hsess, is_in_progress_view] at h
      | some s => exact ⟨s, rfl⟩
    have hact : session.is_active = true := by
      cases hact : session.is_active with
      | false => simp [student_quiz, hsess, hact, is_in_progress_view] at h
      | true => rfl
    have hc : check_student_completed db sid (effective_student st fresh) = false := by
      cases hc : check_student_completed db sid (effective_student st fresh) with
      | false => rfl
      | true => simp [student_quiz, hsess, hact, hc, is_in_progress_view] at h
    exact ⟨session, hsess, hact, hc⟩

/-- Witness for C6: a student with a stored record resumes straight to the
completion screen; a fresh student in an open session reaches the quiz UI
only with a negative completed-check. -/
theorem completed_student_entry_guard_witness :
    (student_quiz wdbCompleted wRunStarted (some 1) 100 "f" QuizEvent.render
      = (wdbCompleted, { wRunStarted with student_id := some "stu", quiz_completed := true },
         Outcome.completionScreen)) ∧
    (∃ session : SessionRow, get_session wdbActive 1 = some session ∧
      session.is_active = true ∧
      check_student_completed wdbActive 1 (effective_student wRunStarted "f") = false) :=
  ⟨(completed_student_entry_guard wdbCompleted wRunStarted 1 100 "f" QuizEvent.render).1
     ⟨1, "teacher", "Business Plan", "Fundamental Components", true⟩ "stu"
     (by decide) (by decide) (by decide) (by decide),
   (completed_student_entry_guard wdbActive wRunStarted 1 100 "f" QuizEvent.render).2
     (by decide)⟩

/-- C7: on the last question of a live run, a manual submit with fewer
selections than questions writes nothing and leaves the run in progress with
only a warning; an accepted manual submit implies every question has a
selection (given well-formed ids) and performs the full submission; and any
run of the view that changes the results store while the selections are
still partial can only be the deadline path. -/
theorem manual_submit_requires_all_answers :
    ∀ (db : DB) (st : RunState) (sid : Nat) (now : Int) (fresh : String),
      (∀ (session : SessionRow) (student : String) (endTime : Int),
        get_session db sid = some session → session.is_active = true →
        st.student_id = some student → check_student_completed db sid student = false →
        st.quiz_completed = false → st.quiz_started = true →
        st.quiz_end_time = some endTime → ¬ endTime - now ≤ 0 →
        ¬ st.current_question < (get_questions_for_student db "Business Plan").length - 1 →
        st.answers.length < (get_questions_for_student db "Business Plan").length →
        student_quiz db st (some sid) now fresh QuizEvent.submitQuiz
          = (db, { st with student_id := some student }, Outcome.incompleteWarning)) ∧
      (∀ (session : SessionRow) (student : String) (endTime : Int),
        get_session db sid = some session → session.is_active = true →
        st.student_id = some student → check_student_completed db sid student = false →
        st.quiz_completed = false → st.quiz_started = true →
        st.quiz_end_time = some endTime → ¬ endTime - now ≤ 0 →
        (get_questions_for_student db "Business Plan").isEmpty = false →
        ¬ st.current_question < (get_questions_for_student db "Business Plan").length - 1 →
        ¬ st.answers.length < (get_questions_for_student db "Business Plan").length →
        (st.answers.map Prod.fst).Nodup →
        (∀ k ∈ st.answers.map Prod.fst,
          k ∈ (get_questions_for_student db "Business Plan").map Question.id) →
        ((get_questions_for_student db "Business Plan").map Question.id).Nodup →
        (∀ q ∈ get_questions_for_student db "Business Plan",
          (st.answers.lookup q.id).isSome = true) ∧
        student_quiz db st (some sid) now fresh QuizEvent.submitQuiz
          = (submit_all_answers db sid student st.answers
               (get_questions_for_student db "Business Plan"),
             { st with student_id := some student, quiz_completed := true },
             Outcome.completionScreen)) ∧
      (∀ ev : QuizEvent,
        (student_quiz db st (some sid) now fresh ev).1.results ≠ db.results →
        st.answers.length < (get_questions_for_student db "Business Plan").length →
        ∃ endT : Int, st.quiz_end_time = some endT ∧ endT - now ≤ 0) := by
  intro db st sid now fresh
  refine ⟨?_, ?_, ?_⟩
  · intro session student endTime h1 h2 h3 h4 h5 h6 h7 h8 h9 h10
    have hempty : (get_questions_for_student db "Business Plan").isEmpty = false := by
      cases hq : get_questions_for_student db "Business Plan" with
      | nil => rw [hq] at h10; simp at h10
      | cons a l => rfl
    simp [student_quiz, effective_student, timer_phase, run_phase, hempty,
      h1, h2, h3, h4, h5, h6, h7, h8, h9, h10]
  · intro session student endTime h1 h2 h3 h4 h5 h6 h7 h8 hempty h9 h10 hnk hsub hni
    constructor
    · intro q hq
      have hlen : ((get_questions_for_student db "Business Plan").map Question.id).length
          ≤ (st.answers.map Prod.fst).length := by
        rw [List.length_map, List.length_map]
        exact Nat.le_of_not_lt fun hcon => h10 hcon
      have hcov := mem_of_nodup_subset_length
        ((get_questions_for_student db "Business Plan").map Question.id)
        (st.answers.map Prod.fst) hnk hni hsub hlen
      exact lookup_isSome_of_mem_keys q.id st.answers
        (hcov q.id (List.mem_map_of_mem Question.id hq))
    · simp [student_quiz, effective_student, timer_phase, run_phase, hempty,
        h1, h2, h3, h4, h5, h6, h7, h8, h9, h10]
  · intro ev hres hpartial
    by_contra hcon
    apply hres
    have hgoal : (student_quiz db st (some sid) now fresh ev).1 = db := by
      cases hsess : get_session db sid with
      | none => simp [student_quiz, hsess]
      | some session =>
        cases hact : session.is_active with
        | false => simp [student_quiz, hsess, hact]
        | true =>
          cases hc : check_student_completed db sid (effective_student st fresh) with
          | true => simp [student_quiz, hsess, hact, hc]
          | false =>
            cases hqc : st.quiz_completed with
            | true => simp [student_quiz, hsess, hact, hc, hqc]
            | false =>
              cases hqe : (get_questions_for_student db "Business Plan").isEmpty with
              | true => simp [student_quiz, hsess, hact, hc, hqc, hqe]
              | false =>
                cases hstart : st.quiz_started with
                | false =>
                    cases ev <;>
                      simp [student_quiz, start_phase, hsess, hact, hc, hqc, hqe, hstart]
                | true =>
                    cases hqet : st.quiz_end_time with
                    | none =>
                        cases ev <;>
                          by_cases hcur : st.current_question
                              < (get_questions_for_student db "Business Plan").length - 1 <;>
                          simp [student_quiz, timer_phase, run_phase, hsess, hact, hc,
                            hqc, hqe, hstart, hqet, hcur, hpartial, apply_ite]
                    | some endT =>
                        have hnle : ¬ endT - now ≤ 0 := fun hle => hcon ⟨endT, hqet, hle⟩
                        cases ev <;>
                          by_cases hcur : st.current_question
                              < (get_questions_for_student db "Business Plan").length - 1 <;>
                          simp [student_quiz, timer_phase, run_phase, hsess, hact, hc,
                            hqc, hqe, hstart, hqet, hnle, hcur, hpartial, apply_ite]
    rw [hgoal]

/-- Witness for C7: a last-question run with one of its questions
unanswered is refused on manual submit; the same run with every question
answered is accepted; and a partial write on this store only happens with an
expired deadline. -/
theorem manual_submit_requires_all_answers_witness :
    (student_quiz wdbActive wRunBlank (some 1) 100 "f" QuizEvent.submitQuiz
      = (wdbActive, { wRunBlank with student_id := some "stu" }, Outcome.incompleteWarning)) ∧
    ((∀ q ∈ get_questions_for_student wdbActive "Business Plan",
        (wRunStarted.answers.lookup q.id).isSome = true) ∧
      student_quiz wdbActive wRunStarted (some 1) 100 "f" QuizEvent.submitQuiz
        = (submit_all_answers wdbActive 1 "stu" wRunStarted.answers
             (get_questions_for_student wdbActive "Business Plan"),
           { wRunStarted with student_id := some "stu", quiz_completed := true },
           Outcome.completionScreen)) ∧
    (∃ endT : Int, wRunBlank.quiz_end_time = some endT ∧ endT - 400 ≤ 0) :=
  ⟨(manual_submit_requires_all_answers wdbActive wRunBlank 1 100 "f").1
     ⟨1, "teacher", "Business Plan", "Fundamental Components", true⟩ "stu" 300
     (by decide) (by decide) (by decide) (by decide) (by decide) (by decide)
     (by decide) (by decide) (by decide) (by decide),
   (manual_submit_requires_all_answers wdbActive wRunStarted 1 100 "f").2.1
     ⟨1, "teacher", "Business Plan", "Fundamental Components", true⟩ "stu" 300
     (by decide) (by decide) (by decide) (by decide) (by decide) (by decide)
     (by decide) (by decide) (by decide) (by decide) (by decide) (by decide)
     (by decide) (by decide),
   (manual_submit_requires_all_answers wdbActive wRunBlank 1 400 "f").2.2
     QuizEvent.render (by decide) (by decide)⟩

end QuizApp
